import Mathlib

/-!
Verification development for the JewelHuntrix scraping/scheduling core.

The definitions below are a shallow embedding of the TypeScript sources:
* `withRetry`, `handle403Recovery`, `scrapeVintedSearch`, `scrapeVintedListing`
  from `server/services/vinted-scraper.ts` (the enhanced scraper),
* `runScheduledScans`, `startScheduler`, `getRandomInterval`, `getHumanLikeDelay`
  from `server/scheduler.ts`,
* `scanSearchQuery` from `server/services/scanner.ts`,
* `sendTelegramAlert` from `server/services/telegram.ts` and the
  `TelegramRateLimiter` from `server/utils/rate-limiter.ts`,
* `PostgresStorage.getFindings` / `deleteExpiredFindings` / `updateLastScanned`
  from `server/storage.ts`.

External effects (the real browser, the target site, the database, the wall
clock, `Math.random()`) are supplied through explicit environment records, so
every function is a pure, executable Lean definition.  Timestamps and random
draws are rationals (JS numbers are used only additively/multiplicatively and
compared here, never in ways where binary floating point rounding could change
a branch at the modelled granularity).
-/

/-- JS `String.includes` on explicit character lists: does `s` start with `pat`? -/
def strStarts : List Char → List Char → Bool
  | _, [] => true
  | [], _ :: _ => false
  | c :: s, p :: ps => c == p && strStarts s ps

/-- JS `String.includes` on explicit character lists: does `s` contain `pat`? -/
def strHas (pat : List Char) : List Char → Bool
  | [] => strStarts [] pat
  | c :: rest => strStarts (c :: rest) pat || strHas pat rest

/-- Model of JavaScript `s.includes(pat)`. -/
def jsIncludes (s pat : String) : Bool :=
  strHas pat.data s.data

/-- The error taxonomy of the spec (section 7): `SoftBlocked`, `RateLimited`,
`Timeout`, `TransientError`. -/
inductive FailureClass where
  | softBlocked
  | rateLimited
  | timeout
  | transientError
deriving DecidableEq, Repr

/-- Classification of a thrown error by its message, exactly as the catch
block of `withRetry` (vinted-scraper.ts:487-498) inspects `error.message`:
`'403'`/`'Forbidden'` is the soft block, `'429'`/`'Too Many Requests'` the
rate limit, `'timeout'` the navigation timeout, and anything else is the
transient catch-all. -/
def classifyError (e : String) : FailureClass :=
  if jsIncludes e "403" || jsIncludes e "Forbidden" then .softBlocked
  else if jsIncludes e "429" || jsIncludes e "Too Many Requests" then .rateLimited
  else if jsIncludes e "timeout" then .timeout
  else .transientError

/-- On the last attempt, `withRetry` (vinted-scraper.ts:487-489) replaces a
`403`/`Forbidden` error with the fixed classified message and rethrows every
other error unchanged (vinted-scraper.ts:500-502). -/
def lastAttemptError (e : String) : String :=
  if jsIncludes e "403" || jsIncludes e "Forbidden" then
    "403 Forbidden - session may be blocked"
  else e

/-- Loop body of `withRetry` (vinted-scraper.ts:472-510).  `fn i` is the
outcome of the `i`-th invocation of the wrapped fetch closure (the attempt
environments differ per attempt, hence the index).  The `for` loop guard
`i < maxRetries` is carried structurally as the number `remaining` of
iterations still allowed (`remaining = maxRetries - i`).  The second
component of the result counts how many times `fn` was invoked.  The sleeps
(`checkSessionRefresh` extension, rate-limit wait, timeout wait, exponential
backoff) only suspend and never change control flow, so they are erased. -/
def withRetryGo (fn : Nat → Except String α) (maxRetries : Nat) :
    Nat → Nat → Except String α × Nat
  | 0, i => (.error "Max retries exceeded", i)
  | remaining + 1, i =>
    match fn i with
    | .ok v => (.ok v, i + 1)
    | .error e =>
      if i = maxRetries - 1 then
        (.error (lastAttemptError e), i + 1)
      else
        withRetryGo fn maxRetries remaining (i + 1)

/-- `withRetry` (vinted-scraper.ts:472-510), returning the surfaced outcome
together with the number of invocations of the wrapped closure. -/
def withRetry (fn : Nat → Except String α) (maxRetries : Nat := 4) :
    Except String α × Nat :=
  withRetryGo fn maxRetries maxRetries 0

example : withRetry (fun _ => (.error "timeout" : Except String Nat)) 4 =
    (.error "timeout", 4) := rfl

example : withRetry (fun i => if i = 2 then .ok 7 else (.error "timeout" : Except String Nat)) 4 =
    (.ok 7, 3) := rfl

example : withRetry (fun _ => (.error "HTTP 403" : Except String Nat)) 4 =
    (.error "403 Forbidden - session may be blocked", 4) := rfl

/-- A listing extracted from a page (`VintedListing` in vinted-scraper.ts). -/
structure VintedListing where
  listingId : String
  title : String
  price : String
  imageUrls : List String
  listingUrl : String
  description : String := ""
deriving DecidableEq, Repr

/-- A browser cookie, the part of `CookieData` (cookie-manager.ts) the
recovery logic acts on. -/
structure Cookie where
  name : String
  value : String
deriving DecidableEq, Repr

/-- The observable state of the Puppeteer page an attempt works with: the
cookies currently held (cookies set by later server responses are outside
the model) and the log of completed `page.goto` navigations, in order. -/
structure PageState where
  cookies : List Cookie
  navLog : List String
deriving DecidableEq, Repr

/-- What the site/network does during `handle403Recovery`: whether each of
the two `page.goto` calls throws, and the page title seen after re-navigating
to the original target. -/
structure RecoveryEnv where
  rootNavError : Option String
  targetNavError : Option String
  retriedTitle : String
deriving DecidableEq, Repr

/-- What the site/network/browser does during one fetch attempt of
`scrapeVintedSearch`/`scrapeVintedListing`.  `launchError` is a
`puppeteer.launch` failure (no browser exists afterwards); `setupError` a
`setupPage` failure (the browser exists); `gotoError` a failure of the
`page.goto` to the target (e.g. a navigation timeout, message `'...timeout...'`);
`evalError` a failure of `page.evaluate`; `pageTitle` the title of the
target page; `listings`/`itemData` what extraction yields for a search
page / a single listing page. -/
structure AttemptEnv where
  launchError : Option String
  setupError : Option String
  initialCookies : List Cookie
  gotoError : Option String
  pageTitle : String
  recovery : RecoveryEnv
  evalError : Option String
  listings : List VintedListing
  itemData : VintedListing
deriving DecidableEq, Repr

/-- The 403-page detection used by both scrape functions
(vinted-scraper.ts:628-629 and 732-733): the title contains `'403'` or
`'Access Denied'`. -/
def blockedTitle (t : String) : Bool :=
  jsIncludes t "403" || jsIncludes t "Access Denied"

def vintedRootUrl : String := "https://www.vinted.com"

/-- `handle403Recovery` (vinted-scraper.ts:438-469): delete every current
cookie, wait, navigate to the site root, re-navigate to the original target,
and report success iff the retried page's title no longer looks blocked.
Both navigations may throw; the surrounding `try`/`catch` turns any such
throw into a `false` result.  Returns the recovery verdict and the page
state afterwards. -/
def handle403Recovery (page : PageState) (url : String) (env : RecoveryEnv) :
    Bool × PageState :=
  let page := { page with cookies := [] }
  match env.rootNavError with
  | some _ => (false, page)
  | none =>
    let page := { page with navLog := page.navLog ++ [vintedRootUrl] }
    match env.targetNavError with
    | some _ => (false, page)
    | none =>
      let page := { page with navLog := page.navLog ++ [url] }
      if !blockedTitle env.retriedTitle then (true, page) else (false, page)

/-- Result of one fetch attempt: the body's outcome and the resource
bookkeeping of the surrounding `try`/`finally` (was a browser created, was it
closed before the attempt returned), plus the final page state when a page
existed. -/
structure AttemptResult (α : Type) where
  outcome : Except String α
  browserCreated : Bool
  browserClosed : Bool
  page : Option PageState

/-- The body of one `scrapeVintedSearch` attempt (vinted-scraper.ts:614-713),
after the browser exists: set up the page, navigate to the target, run the
403 check with in-place recovery, and extract the listings. -/
def searchAttemptBody (url : String) (env : AttemptEnv) :
    Except String (List VintedListing) × Option PageState :=
  match env.setupError with
  | some e => (.error e, none)
  | none =>
    let page : PageState := { cookies := env.initialCookies, navLog := [] }
    match env.gotoError with
    | some e => (.error e, some page)
    | none =>
      let page := { page with navLog := page.navLog ++ [url] }
      if blockedTitle env.pageTitle then
        match handle403Recovery page url env.recovery with
        | (true, page2) =>
          match env.evalError with
          | some e => (.error e, some page2)
          | none => (.ok env.listings, some page2)
        | (false, page2) =>
          (.error "403 Forbidden - unable to recover session", some page2)
      else
        match env.evalError with
        | some e => (.error e, some page)
        | none => (.ok env.listings, some page)

/-- One fetch attempt of `scrapeVintedSearch` (the closure passed to
`withRetry`, vinted-scraper.ts:613-714).  The `try`/`finally` closes the
browser on every exit path of the body whenever one was created; when
`puppeteer.launch` itself throws, `browser` is still `null` and there is
nothing to close. -/
def searchAttempt (url : String) (env : AttemptEnv) :
    AttemptResult (List VintedListing) :=
  match env.launchError with
  | some e =>
    { outcome := .error e, browserCreated := false, browserClosed := false,
      page := none }
  | none =>
    let body := searchAttemptBody url env
    { outcome := body.1, browserCreated := true, browserClosed := true,
      page := body.2 }

/-- The body of one `scrapeVintedListing` attempt (vinted-scraper.ts:720-858),
after the browser exists.  Identical control flow to the search attempt, with
a single listing extracted and a different terminal 403 message. -/
def listingAttemptBody (url : String) (env : AttemptEnv) :
    Except String VintedListing × Option PageState :=
  match env.setupError with
  | some e => (.error e, none)
  | none =>
    let page : PageState := { cookies := env.initialCookies, navLog := [] }
    match env.gotoError with
    | some e => (.error e, some page)
    | none =>
      let page := { page with navLog := page.navLog ++ [url] }
      if blockedTitle env.pageTitle then
        match handle403Recovery page url env.recovery with
        | (true, page2) =>
          match env.evalError with
          | some e => (.error e, some page2)
          | none => (.ok env.itemData, some page2)
        | (false, page2) =>
          (.error "403 Forbidden - unable to access listing", some page2)
      else
        match env.evalError with
        | some e => (.error e, some page)
        | none => (.ok env.itemData, some page)

/-- One fetch attempt of `scrapeVintedListing` (vinted-scraper.ts:720-858). -/
def listingAttempt (url : String) (env : AttemptEnv) :
    AttemptResult VintedListing :=
  match env.launchError with
  | some e =>
    { outcome := .error e, browserCreated := false, browserClosed := false,
      page := none }
  | none =>
    let body := listingAttemptBody url env
    { outcome := body.1, browserCreated := true, browserClosed := true,
      page := body.2 }

/-- `scrapeVintedSearch` (vinted-scraper.ts:610-715): the retry wrapper with
its default maximum of 4 attempts around the per-attempt closure.  `envs i`
is the environment of the `i`-th attempt. -/
def scrapeVintedSearch (url : String) (envs : Nat → AttemptEnv) :
    Except String (List VintedListing) × Nat :=
  withRetry (fun i => (searchAttempt url (envs i)).outcome) 4

/-- `scrapeVintedListing` (vinted-scraper.ts:717-859): the retry wrapper with
its default maximum of 4 attempts around the per-attempt closure. -/
def scrapeVintedListing (url : String) (envs : Nat → AttemptEnv) :
    Except String VintedListing × Nat :=
  withRetry (fun i => (listingAttempt url (envs i)).outcome) 4

/-- A row of the `findings` table, restricted to the columns the storage
operations under scrutiny read (`foundAt`, `expiresAt`); `id` stands for the
remaining columns.  Timestamps are milliseconds since the epoch. -/
structure Finding where
  id : Nat
  foundAt : ℚ
  expiresAt : ℚ
deriving DecidableEq, Repr

/-- `PostgresStorage.getFindings` (storage.ts:961-967): select the rows with
`expiresAt < now` and order them by `foundAt` descending. -/
def getFindings (table : List Finding) (now : ℚ) : List Finding :=
  (table.filter (fun f => decide (f.expiresAt < now))).mergeSort
    (fun a b => decide (b.foundAt ≤ a.foundAt))

/-- `PostgresStorage.deleteExpiredFindings` (storage.ts:998-1001): delete the
rows with `expiresAt < now`; the function returns the table afterwards. -/
def deleteExpiredFindings (table : List Finding) (now : ℚ) : List Finding :=
  table.filter (fun f => !decide (f.expiresAt < now))

/-- The set of rows `PostgresStorage.deleteExpiredFindings` removes: the ones
matching its `WHERE expiresAt < now` condition (storage.ts:1000). -/
def deleteExpiredFindingsRemoves (table : List Finding) (now : ℚ) : List Finding :=
  table.filter (fun f => decide (f.expiresAt < now))

/-- A row of the `searchQueries` table, restricted to the columns the
scheduler reads. -/
structure SearchQuery where
  id : Nat
  vintedUrl : String
  isActive : Bool
  lastScannedAt : Option ℚ
deriving DecidableEq, Repr

/-- The interval configuration of scheduler.ts:8-9
(`SCAN_MIN_INTERVAL_MINUTES`, default 70, and `SCAN_MAX_INTERVAL_MINUTES`,
default 150). -/
structure SchedulerConfig where
  minIntervalMinutes : ℤ
  maxIntervalMinutes : ℤ
deriving DecidableEq, Repr

def defaultSchedulerConfig : SchedulerConfig :=
  { minIntervalMinutes := 70, maxIntervalMinutes := 150 }

/-- `getRandomInterval` (scheduler.ts:12-15):
`Math.floor(Math.random() * (MAX - MIN)) + MIN`, with `rand` the draw of
`Math.random()`. -/
def getRandomInterval (cfg : SchedulerConfig) (rand : ℚ) : ℤ :=
  ⌊rand * ((cfg.maxIntervalMinutes : ℚ) - (cfg.minIntervalMinutes : ℚ))⌋ +
    cfg.minIntervalMinutes

/-- The `patterns` array of `getHumanLikeDelay` (scheduler.ts:19-24), in
milliseconds. -/
def humanDelayPatterns : List Nat :=
  [2 * 60 * 1000, 5 * 60 * 1000, 15 * 60 * 1000, 45 * 60 * 1000]

/-- `getHumanLikeDelay` (scheduler.ts:17-29): index the weighted pattern list
(the two shortest delays duplicated) by `Math.floor(Math.random() * length)`.
The out-of-range default 0 is unreachable for a draw in `[0, 1)`. -/
def getHumanLikeDelay (rand : ℚ) : Nat :=
  let weightedPatterns := humanDelayPatterns ++ humanDelayPatterns.take 2
  weightedPatterns.getD (⌊rand * (weightedPatterns.length : ℚ)⌋).toNat 0

/-- `minutesSinceLastScan` (scheduler.ts:75-77): `none` models the
`Infinity` of a never-scanned task. -/
def minutesSinceLastScan (now : ℚ) (lastScannedAt : Option ℚ) : Option ℚ :=
  lastScannedAt.map (fun t => (now - t) / (1000 * 60))

/-- The due check of scheduler.ts:79-81:
`minutesSinceLastScan >= requiredInterval`, where a never-scanned task
(`Infinity` minutes) is always due. -/
def isDue (cfg : SchedulerConfig) (lastScannedAt : Option ℚ) (now rand : ℚ) :
    Bool :=
  match minutesSinceLastScan now lastScannedAt with
  | none => true
  | some m => decide ((getRandomInterval cfg rand : ℚ) ≤ m)

/-- `PostgresStorage.updateLastScanned` (storage.ts:937-941): set the task's
`lastScannedAt` to `new Date()`; `t` is the timestamp of that `new Date()`. -/
def updateLastScanned (tasks : List SearchQuery) (id : Nat) (t : ℚ) :
    List SearchQuery :=
  tasks.map fun q =>
    if q.id = id then { q with lastScannedAt := some t } else q

/-- The external effects of one `scanSearchQuery` call (scanner.ts:7-112):
`scrape` is the terminal outcome of `scrapeVintedSearch` after its internal
retries; the per-listing dedup/AI/alert pipeline (scanner.ts:14-102) is
abstracted by `pipelineError` (a throw from any of its storage/AI calls) and
`newFindings` (the count it accumulates when it completes); `updateTime` is
the `new Date()` used by `updateLastScanned`. -/
structure ScanEnv where
  scrape : Except String (List VintedListing)
  pipelineError : Option String
  newFindings : Nat
  updateTime : ℚ

/-- `scanSearchQuery` (scanner.ts:7-112).  The entire body sits in a
`try`/`catch` whose handler logs and `return 0` (scanner.ts:108-111), so the
function never rejects: every branch is `.ok`.  `updateLastScanned` runs only
when the whole body completed without a throw. -/
def scanSearchQuery (tasks : List SearchQuery) (q : SearchQuery)
    (env : ScanEnv) : Except String (Nat × List SearchQuery) :=
  match env.scrape with
  | .error _ => .ok (0, tasks)
  | .ok _listings =>
    match env.pipelineError with
    | some _ => .ok (0, tasks)
    | none => .ok (env.newFindings, updateLastScanned tasks q.id env.updateTime)

/-- A cycle-level suspension taken by `runScheduledScans`, with its duration
in milliseconds: the 30-minute wait after a failed health check
(scheduler.ts:65), the human-like break after a processed task
(scheduler.ts:91-93), or the 30-minute rate-limit penalty
(scheduler.ts:105-108). -/
inductive WaitEvent where
  | healthCoolDown (ms : Nat)
  | humanBreak (ms : Nat)
  | rateLimitPenalty (ms : Nat)
deriving DecidableEq, Repr

/-- The external effects of one scheduler cycle: the health-check verdict,
whether `storage.getSearchQueries` throws, and per-iteration wall-clock
times, `Math.random()` draws and scan effects. -/
structure CycleEnv where
  healthOk : Bool
  queriesError : Option String
  nowAt : Nat → ℚ
  randAt : Nat → ℚ
  breakRandAt : Nat → ℚ
  scanEnvAt : Nat → ScanEnv
  cleanupNow : ℚ

/-- The scheduler's mutable state: the module-level `isRunning` flag
(scheduler.ts:5) and the database tables it reads and writes. -/
structure SchedulerState where
  isRunning : Bool
  tasks : List SearchQuery
  findings : List Finding

/-- What one trigger of `runScheduledScans` did: how many searches were
processed and which cycle-level waits were taken, in order. -/
structure CycleReport where
  processed : Nat
  waits : List WaitEvent
deriving DecidableEq, Repr

/-- The `for (const search of activeSearches)` loop of
scheduler.ts:73-113, iterating the snapshot of active searches while the
table state threads through.  On a completed scan: count it and take the
human-like break.  On a rejected scan promise: take the 30-minute penalty
iff the error message signals a rate limit, else nothing. -/
def cycleLoop (cfg : SchedulerConfig) (env : CycleEnv) :
    List SearchQuery → Nat → List SearchQuery → Nat → List WaitEvent →
    List SearchQuery × Nat × List WaitEvent
  | [], _, tasks, processed, waits => (tasks, processed, waits)
  | q :: rest, i, tasks, processed, waits =>
    let now := env.nowAt i
    if isDue cfg q.lastScannedAt now (env.randAt i) then
      match scanSearchQuery tasks q (env.scanEnvAt i) with
      | .ok (_, tasks2) =>
        cycleLoop cfg env rest (i + 1) tasks2 (processed + 1)
          (waits ++ [.humanBreak (getHumanLikeDelay (env.breakRandAt i))])
      | .error e =>
        cycleLoop cfg env rest (i + 1) tasks processed
          (if jsIncludes e "429" || jsIncludes e "Too Many Requests" then
            waits ++ [.rateLimitPenalty (30 * 60 * 1000)]
          else waits)
    else
      cycleLoop cfg env rest (i + 1) tasks processed waits

/-- `runScheduledScans` (scheduler.ts:51-125).  A trigger while `isRunning`
is set returns at once.  Otherwise the flag is set, the body runs under
`try`/`catch`/`finally`: a failed health check waits 30 minutes and returns
early; a throw from `storage.getSearchQueries` is caught at line 120;
otherwise the active searches are iterated and the expired findings
cleaned up.  The `finally` clears the flag on every one of these exit
paths. -/
def runScheduledScans (cfg : SchedulerConfig) (env : CycleEnv)
    (s : SchedulerState) : SchedulerState × CycleReport :=
  if s.isRunning then
    (s, { processed := 0, waits := [] })
  else
    if env.healthOk = false then
      ({ s with isRunning := false },
        { processed := 0, waits := [.healthCoolDown (30 * 60 * 1000)] })
    else
      match env.queriesError with
      | some _ => ({ s with isRunning := false }, { processed := 0, waits := [] })
      | none =>
        let active := s.tasks.filter (·.isActive)
        let r := cycleLoop cfg env active 0 s.tasks 0 []
        ({ isRunning := false, tasks := r.1,
           findings := deleteExpiredFindings s.findings env.cleanupNow },
         { processed := r.2.1, waits := r.2.2 })

/-- The module-level registry of `node-cron` jobs: each `cron.schedule` call
appends one scheduled job (its cron expression). -/
structure CronState where
  jobs : List String
deriving DecidableEq, Repr

/-- `startScheduler` (scheduler.ts:127-144): unconditionally register one
more `cron.schedule("*/20 * * * *", ...)` job, each of which fires every 20
minutes and triggers `runScheduledScans` after a jitter. -/
def startScheduler (s : CronState) : CronState :=
  { s with jobs := s.jobs ++ ["*/20 * * * *"] }

/-- An entry of the `TelegramRateLimiter.alerts` array
(rate-limiter.ts:4-10). -/
structure AlertRecord where
  timestamp : ℚ
  listingUrl : String
deriving DecidableEq, Repr

/-- The `TelegramRateLimiter` singleton's state (rate-limiter.ts:9-10). -/
structure RateLimiterState where
  alerts : List AlertRecord
deriving DecidableEq, Repr

def hourInMs : ℚ := 60 * 60 * 1000

def maxAlertsPerHour : Nat := 10

/-- `TelegramRateLimiter.canSendAlert` (rate-limiter.ts:17-40): prune the
entries older than one hour (a mutation of the singleton), then refuse when
the hourly budget is full or when the same listing already has a recent
alert. -/
def canSendAlert (st : RateLimiterState) (now : ℚ) (url : String) :
    Bool × RateLimiterState :=
  let alerts := st.alerts.filter (fun a => decide (now - a.timestamp < hourInMs))
  if maxAlertsPerHour ≤ alerts.length then (false, ⟨alerts⟩)
  else if alerts.any
      (fun a => a.listingUrl == url && decide (now - a.timestamp < hourInMs)) then
    (false, ⟨alerts⟩)
  else (true, ⟨alerts⟩)

/-- `TelegramRateLimiter.recordAlert` (rate-limiter.ts:45-49). -/
def recordAlert (st : RateLimiterState) (now : ℚ) (url : String) :
    RateLimiterState :=
  ⟨st.alerts ++ [{ timestamp := now, listingUrl := url }]⟩

/-- The content handed to `bot.sendMessage` for one alert (telegram.ts:74-95),
keeping the fields rather than the formatted markdown string. -/
structure TelegramMessage where
  listingTitle : String
  listingUrl : String
  price : String
  confidenceScore : ℚ
  mainMaterialGuess : String
  reasons : List String
deriving DecidableEq, Repr

/-- The external conditions of one `sendTelegramAlert` call: whether the bot
and chat id are configured (telegram.ts:4-11), whether `bot.sendMessage`
throws, and the current time. -/
structure TelegramEnv where
  botConfigured : Bool
  chatConfigured : Bool
  sendError : Option String
  now : ℚ

/-- `sendTelegramAlert` (telegram.ts:44-108).  Returns whether the alert was
reported sent, the rate limiter state afterwards, and the list of messages
actually handed to Telegram.  The confidence/valuable gate (telegram.ts:54-57)
runs before anything touches the rate limiter. -/
def sendTelegramAlert (env : TelegramEnv) (st : RateLimiterState)
    (listingTitle listingUrl price : String) (confidenceScore : ℚ)
    (mainMaterialGuess : String) (reasons : List String)
    (isValuableLikely : Bool) :
    Bool × RateLimiterState × List TelegramMessage :=
  if decide (confidenceScore < 75) || !isValuableLikely then (false, st, [])
  else if !(env.botConfigured && env.chatConfigured) then (false, st, [])
  else
    match canSendAlert st env.now listingUrl with
    | (false, st2) => (false, st2, [])
    | (true, st2) =>
      let msg : TelegramMessage :=
        { listingTitle := listingTitle, listingUrl := listingUrl,
          price := price, confidenceScore := confidenceScore,
          mainMaterialGuess := mainMaterialGuess, reasons := reasons }
      match env.sendError with
      | some _ => (false, st2, [])
      | none => (true, recordAlert st2 env.now listingUrl, [msg])

/-! ## Helper lemmas -/

/-- When every attempt up to the budget fails, the retry loop invokes the
closure once per remaining iteration and surfaces the (classified rethrow of
the) final attempt's error, with the invocation counter landing exactly on
`maxRetries`. -/
theorem withRetryGo_allFail {α : Type} (fn : Nat → Except String α) (m : Nat)
    (hfail : ∀ k, k < m → ∃ e, fn k = .error e) :
    ∀ remaining i, remaining + i = m → 0 < remaining →
      ∃ e, fn (m - 1) = .error e ∧
        withRetryGo fn m remaining i = (.error (lastAttemptError e), m) := by
  intro remaining
  induction remaining with
  | zero => intro i _ h0; exact absurd h0 (lt_irrefl 0)
  | succ r ih =>
    intro i hsum _
    have hi : i < m := by omega
    obtain ⟨e, he⟩ := hfail i hi
    by_cases hlast : i = m - 1
    · have him : i + 1 = m := by omega
      subst hlast
      exact ⟨e, he, by simp [withRetryGo, he, him]⟩
    · have hr : 0 < r := by omega
      have := ih (i + 1) (by omega) hr
      simpa [withRetryGo, he, hlast] using this

/-- Every run of the retry loop ends either with some attempt's success
payload (counting that attempt's invocation) or with the classified rethrow
of the final attempt's own error — the `'Max retries exceeded'` line after
the loop is unreachable whenever at least one iteration remains. -/
theorem withRetryGo_outcome {α : Type} (fn : Nat → Except String α) (m : Nat) :
    ∀ remaining i, remaining + i = m → 0 < remaining →
      (∃ j v, i ≤ j ∧ j < m ∧ fn j = .ok v ∧
        withRetryGo fn m remaining i = (.ok v, j + 1)) ∨
      (∃ e, fn (m - 1) = .error e ∧
        withRetryGo fn m remaining i = (.error (lastAttemptError e), m)) := by
  intro remaining
  induction remaining with
  | zero => intro i _ h0; exact absurd h0 (lt_irrefl 0)
  | succ r ih =>
    intro i hsum _
    have hi : i < m := by omega
    cases he : fn i with
    | ok v =>
      exact Or.inl ⟨i, v, le_refl i, hi, he, by simp [withRetryGo, he]⟩
    | error e =>
      by_cases hlast : i = m - 1
      · have him : i + 1 = m := by omega
        subst hlast
        exact Or.inr ⟨e, he, by simp [withRetryGo, he, him]⟩
      · have hr : 0 < r := by omega
        have h2 := ih (i + 1) (by omega) hr
        rcases h2 with ⟨j, v, hij, hjm, hfj, heq⟩ | ⟨e2, hfe, heq⟩
        · exact Or.inl ⟨j, v, by omega, hjm, hfj,
            by simpa [withRetryGo, he, hlast] using heq⟩
        · exact Or.inr ⟨e2, hfe, by simpa [withRetryGo, he, hlast] using heq⟩

/-- `classifyError` is total over the four-class taxonomy. -/
theorem classifyError_cases (e : String) :
    classifyError e = .softBlocked ∨ classifyError e = .rateLimited ∨
    classifyError e = .timeout ∨ classifyError e = .transientError := by
  cases h : classifyError e <;> simp [h]

/-- `scanSearchQuery` never rejects: its whole body is inside the
`try`/`catch` of scanner.ts:10-111 whose handler returns 0. -/
theorem scanSearchQuery_never_rejects (tasks : List SearchQuery)
    (q : SearchQuery) (env : ScanEnv) :
    ∃ r, scanSearchQuery tasks q env = .ok r := by
  unfold scanSearchQuery
  cases env.scrape with
  | error e => exact ⟨_, rfl⟩
  | ok ls =>
    cases h : env.pipelineError with
    | some e => exact ⟨_, rfl⟩
    | none => exact ⟨_, rfl⟩

/-! ## Claim theorems -/

/-- C1: for every call of the Recovery Controller's retry wrapper
(`withRetry` with its maximum of 4 attempts) around a fetch closure that
fails on every invocation, the closure is invoked exactly 4 times — never
fewer, never more — and the call terminates by surfacing a classified
error (the final attempt's error, rewritten to the fixed soft-block message
when it was a 403). -/
theorem withRetry_permanentFailure_exactly_four {α : Type}
    (fn : Nat → Except String α) (hfail : ∀ k, k < 4 → ∃ e, fn k = .error e) :
    (withRetry fn 4).2 = 4 ∧
    ∃ e, fn 3 = .error e ∧ (withRetry fn 4).1 = .error (lastAttemptError e) := by
  obtain ⟨e, he, heq⟩ := withRetryGo_allFail fn 4 hfail 4 0 rfl (by omega)
  exact ⟨by simp [withRetry, heq], e, he, by simp [withRetry, heq]⟩

/-- Witness for C1 at a concrete permanently failing fetch closure. -/
theorem withRetry_permanentFailure_exactly_four_witness :
    (withRetry (fun _ => (.error "timeout" : Except String Nat)) 4).2 = 4 ∧
    ∃ e, (fun _ => (.error "timeout" : Except String Nat)) 3 = .error e ∧
      (withRetry (fun _ => (.error "timeout" : Except String Nat)) 4).1 =
        .error (lastAttemptError e) :=
  withRetry_permanentFailure_exactly_four
    (fun _ => (.error "timeout" : Except String Nat))
    (fun _ _ => ⟨"timeout", rfl⟩)

/-- C3: a call to the Fetch Client (`scrapeVintedSearch`, i.e. the retry
wrapper around the per-attempt closure) never hands its caller a raw
unclassifiable outcome: it is either a success payload or a terminal error
that classifies into one of `SoftBlocked`, `RateLimited`, `Timeout`,
`TransientError` — and that error is the classified rethrow of the final
attempt's own error, never the wrapper's unreachable
`'Max retries exceeded'` sentinel. -/
theorem scrapeVintedSearch_outcome_classified (url : String)
    (envs : Nat → AttemptEnv) :
    (∃ v, (scrapeVintedSearch url envs).1 = .ok v) ∨
    (∃ e0, (searchAttempt url (envs 3)).outcome = .error e0 ∧
      (scrapeVintedSearch url envs).1 = .error (lastAttemptError e0) ∧
      (classifyError (lastAttemptError e0) = .softBlocked ∨
       classifyError (lastAttemptError e0) = .rateLimited ∨
       classifyError (lastAttemptError e0) = .timeout ∨
       classifyError (lastAttemptError e0) = .transientError)) := by
  have h := withRetryGo_outcome (fun i => (searchAttempt url (envs i)).outcome)
    4 4 0 rfl (by omega)
  rcases h with ⟨j, v, _, _, _, heq⟩ | ⟨e0, he0, heq⟩
  · exact Or.inl ⟨v, by simp [scrapeVintedSearch, withRetry, heq]⟩
  · exact Or.inr ⟨e0, he0, by simp [scrapeVintedSearch, withRetry, heq],
      classifyError_cases (lastAttemptError e0)⟩

/-- C4: on a `SoftBlocked` attempt (403 page detected), the in-place
recovery discards all current cookies and re-navigates to the site root
followed by exactly one retry of the original target within the same
attempt; a still-blocked retried page makes that attempt fail exactly once
against the 4-attempt budget (no double counting, no infinite loop: an
all-blocked run performs exactly 4 attempts and surfaces a terminal error),
and a no-longer-blocked retried page turns the attempt into a Success. -/
theorem softBlock_recovery_within_attempt (url : String)
    (envs : Nat → AttemptEnv)
    (hAll : ∀ i, (envs i).launchError = none ∧ (envs i).setupError = none ∧
      (envs i).gotoError = none ∧ blockedTitle (envs i).pageTitle = true ∧
      (envs i).recovery.rootNavError = none ∧
      (envs i).recovery.targetNavError = none) :
    (∀ i page,
      (handle403Recovery page url (envs i).recovery).2.cookies = [] ∧
      (handle403Recovery page url (envs i).recovery).2.navLog =
        page.navLog ++ [vintedRootUrl, url]) ∧
    (∀ i, blockedTitle (envs i).recovery.retriedTitle = false →
      (envs i).evalError = none →
      (searchAttempt url (envs i)).outcome = .ok (envs i).listings) ∧
    (∀ i, blockedTitle (envs i).recovery.retriedTitle = true →
      (searchAttempt url (envs i)).outcome =
        .error "403 Forbidden - unable to recover session") ∧
    ((∀ i, blockedTitle (envs i).recovery.retriedTitle = true) →
      (scrapeVintedSearch url envs).2 = 4 ∧
      ∃ e, (scrapeVintedSearch url envs).1 = .error e) := by
  have still : ∀ i, blockedTitle (envs i).recovery.retriedTitle = true →
      (searchAttempt url (envs i)).outcome =
        .error "403 Forbidden - unable to recover session" := by
    intro i hstill
    obtain ⟨hL, hS, hG, hB, hRoot, hTgt⟩ := hAll i
    simp [searchAttempt, searchAttemptBody, handle403Recovery,
      hL, hS, hG, hB, hRoot, hTgt, hstill]
  refine ⟨?_, ?_, still, ?_⟩
  · intro i page
    obtain ⟨_, _, _, _, hRoot, hTgt⟩ := hAll i
    cases hb : blockedTitle (envs i).recovery.retriedTitle <;>
      simp [handle403Recovery, hRoot, hTgt, hb]
  · intro i hok heval
    obtain ⟨hL, hS, hG, hB, hRoot, hTgt⟩ := hAll i
    simp [searchAttempt, searchAttemptBody, handle403Recovery,
      hL, hS, hG, hB, hRoot, hTgt, hok, heval]
  · intro hstillAll
    obtain ⟨e, _, heq⟩ := withRetryGo_allFail
      (fun i => (searchAttempt url (envs i)).outcome) 4
      (fun k _ => ⟨_, still k (hstillAll k)⟩) 4 0 rfl (by omega)
    exact ⟨by simp [scrapeVintedSearch, withRetry, heq],
      lastAttemptError e, by simp [scrapeVintedSearch, withRetry, heq]⟩

/-- Environment of an attempt whose target page is a 403 page and whose
recovery re-navigation still shows a 403 page, used as the C4 witness. -/
def blockedAttemptEnv : AttemptEnv :=
  { launchError := none, setupError := none, initialCookies := [⟨"country", "nl"⟩],
    gotoError := none, pageTitle := "403 Forbidden",
    recovery := { rootNavError := none, targetNavError := none,
                  retriedTitle := "403 Forbidden" },
    evalError := none, listings := [], itemData := ⟨"", "", "", [], "", ""⟩ }

/-- Witness for C4: with every attempt soft-blocked and recovery failing,
the whole call performs exactly 4 attempts and ends in a terminal error. -/
theorem softBlock_recovery_within_attempt_witness :
    (∀ page,
      (handle403Recovery page "https://www.vinted.com/catalog"
        blockedAttemptEnv.recovery).2.cookies = [] ∧
      (handle403Recovery page "https://www.vinted.com/catalog"
        blockedAttemptEnv.recovery).2.navLog =
        page.navLog ++ [vintedRootUrl, "https://www.vinted.com/catalog"]) ∧
    (scrapeVintedSearch "https://www.vinted.com/catalog"
      (fun _ => blockedAttemptEnv)).2 = 4 ∧
    ∃ e, (scrapeVintedSearch "https://www.vinted.com/catalog"
      (fun _ => blockedAttemptEnv)).1 = .error e := by
  have h := softBlock_recovery_within_attempt "https://www.vinted.com/catalog"
    (fun _ => blockedAttemptEnv)
    (fun _ => ⟨rfl, rfl, rfl, rfl, rfl, rfl⟩)
  exact ⟨fun page => h.1 0 page, h.2.2.2 (fun _ => rfl)⟩

/-- C6: for every fetch attempt of `scrapeVintedSearch` and
`scrapeVintedListing`, on every exit path (success, thrown navigation or
extraction error, timeout, blocked page), a browser that was created for the
attempt is closed before the attempt returns — no browsing resources leak
across calls. -/
theorem browser_closed_on_every_exit_path (url : String) (env : AttemptEnv) :
    ((searchAttempt url env).browserCreated = true →
      (searchAttempt url env).browserClosed = true) ∧
    ((listingAttempt url env).browserCreated = true →
      (listingAttempt url env).browserClosed = true) := by
  constructor <;>
    cases h : env.launchError <;>
      simp [searchAttempt, listingAttempt, h]

/-- Witness for C6 at a concrete attempt environment (browser created,
navigation times out). -/
theorem browser_closed_on_every_exit_path_witness :
    ((searchAttempt "https://www.vinted.com/catalog"
      { blockedAttemptEnv with
        gotoError := some "Navigation timeout of 20000 ms exceeded" }).browserClosed
        = true) ∧
    ((listingAttempt "https://www.vinted.com/items/1"
      { blockedAttemptEnv with
        gotoError := some "Navigation timeout of 20000 ms exceeded" }).browserClosed
        = true) := by
  have h1 := browser_closed_on_every_exit_path "https://www.vinted.com/catalog"
    { blockedAttemptEnv with
      gotoError := some "Navigation timeout of 20000 ms exceeded" }
  have h2 := browser_closed_on_every_exit_path "https://www.vinted.com/items/1"
    { blockedAttemptEnv with
      gotoError := some "Navigation timeout of 20000 ms exceeded" }
  exact ⟨h1.1 rfl, h2.2 rfl⟩

/-- C5: at most one scan cycle executes at a time — a trigger of
`runScheduledScans` that fires while the global `isRunning` flag is set
returns immediately with zero tasks processed, no waits and no state change,
and on every exit path of a real cycle the flag ends cleared (entering with
the flag down, it is down again afterwards; entering with it up means the
trigger was dropped and the state is untouched). -/
theorem scheduler_reentrancy_guard (cfg : SchedulerConfig) (env : CycleEnv)
    (s : SchedulerState) :
    (s.isRunning = true →
      runScheduledScans cfg env s = (s, { processed := 0, waits := [] })) ∧
    (runScheduledScans cfg env s).1.isRunning = s.isRunning := by
  constructor
  · intro h; simp [runScheduledScans, h]
  · cases h : s.isRunning with
    | true => simp [runScheduledScans, h]
    | false =>
      cases hh : env.healthOk <;> cases hq : env.queriesError <;>
        simp [runScheduledScans, h, hh, hq]

/-- A scan whose scrape succeeds with no listings, for concrete scheduler
environments. -/
def idleScanEnv : ScanEnv :=
  { scrape := .ok [], pipelineError := none, newFindings := 0, updateTime := 0 }

/-- A concrete cycle environment: healthy session, storage reachable,
deterministic clock and random draws. -/
def quietCycleEnv : CycleEnv :=
  { healthOk := true, queriesError := none, nowAt := fun _ => 0,
    randAt := fun _ => 0, breakRandAt := fun _ => 0,
    scanEnvAt := fun _ => idleScanEnv, cleanupNow := 0 }

/-- A scheduler state in which a cycle is already running. -/
def busySchedulerState : SchedulerState :=
  { isRunning := true,
    tasks := [{ id := 1, vintedUrl := "https://www.vinted.com/catalog",
                isActive := true, lastScannedAt := none }],
    findings := [] }

/-- Witness for C5: a duplicate trigger during a running cycle is a no-op. -/
theorem scheduler_reentrancy_guard_witness :
    runScheduledScans defaultSchedulerConfig quietCycleEnv busySchedulerState =
      (busySchedulerState, { processed := 0, waits := [] }) ∧
    (runScheduledScans defaultSchedulerConfig quietCycleEnv
      busySchedulerState).1.isRunning = busySchedulerState.isRunning :=
  ⟨(scheduler_reentrancy_guard defaultSchedulerConfig quietCycleEnv
      busySchedulerState).1 rfl,
   (scheduler_reentrancy_guard defaultSchedulerConfig quietCycleEnv
      busySchedulerState).2⟩

/-- The task loop never records a rate-limit penalty wait: the `catch` arm it
lives in (scheduler.ts:101-109) fires only when the `scanSearchQuery` promise
rejects, and `scanSearchQuery` never rejects. -/
theorem cycleLoop_no_penalty (cfg : SchedulerConfig) (env : CycleEnv) :
    ∀ (qs : List SearchQuery) (i : Nat) (tasks : List SearchQuery)
      (processed : Nat) (waits : List WaitEvent),
      (∀ ms, WaitEvent.rateLimitPenalty ms ∉ waits) →
      ∀ ms, WaitEvent.rateLimitPenalty ms ∉
        (cycleLoop cfg env qs i tasks processed waits).2.2 := by
  intro qs
  induction qs with
  | nil => intro i tasks processed waits h ms; simpa [cycleLoop] using h ms
  | cons q rest ih =>
    intro i tasks processed waits h ms
    obtain ⟨r, hr⟩ := scanSearchQuery_never_rejects tasks q (env.scanEnvAt i)
    obtain ⟨n, tasks2⟩ := r
    by_cases hd : isDue cfg q.lastScannedAt (env.nowAt i) (env.randAt i)
    · have hnew : ∀ ms2, WaitEvent.rateLimitPenalty ms2 ∉
          waits ++ [WaitEvent.humanBreak (getHumanLikeDelay (env.breakRandAt i))] := by
        intro ms2
        simp only [List.mem_append, List.mem_singleton]
        rintro (hin | heq)
        · exact h ms2 hin
        · exact WaitEvent.noConfusion heq
      have := ih (i + 1) tasks2 (processed + 1) _ hnew ms
      simpa [cycleLoop, hd, hr] using this
    · have := ih (i + 1) tasks processed waits h ms
      simpa [cycleLoop, hd] using this

/-- C2 (refuted by the code): the claim says a task whose scan ends in a
`RateLimited` (HTTP 429) terminal failure makes the Scheduler take a fixed
30-minute cycle-level penalty before the next task.  In the code this penalty
(scheduler.ts:105-108) can never be taken, for any environment — including
one whose scrape fails all attempts with `'429 Too Many Requests'` — because
`scanSearchQuery` swallows every error and returns 0 (scanner.ts:108-111),
so the scheduler's catch arm is dead code. -/
theorem scheduler_never_applies_rate_limit_penalty (cfg : SchedulerConfig)
    (env : CycleEnv) (s : SchedulerState) :
    ∀ ms, WaitEvent.rateLimitPenalty ms ∉ (runScheduledScans cfg env s).2.waits := by
  intro ms
  by_cases h : s.isRunning
  · simp [runScheduledScans, h]
  · cases hh : env.healthOk <;> cases hq : env.queriesError
    all_goals simp [runScheduledScans, h, hh, hq]
    all_goals
      first
        | exact fun heq => WaitEvent.noConfusion heq
        | exact cycleLoop_no_penalty cfg env _ 0 s.tasks 0 []
            (fun _ => List.not_mem_nil _) ms

/-- C7 (counterexample): `startScheduler` is not idempotent — calling it
twice from a fresh cron registry leaves two registered timer loops, not the
one a second idempotent call would have to leave. -/
theorem startScheduler_twice_not_idempotent :
    startScheduler (startScheduler { jobs := [] }) ≠
      startScheduler { jobs := [] } := by
  intro h
  have := congrArg (fun s => s.jobs.length) h
  simp [startScheduler] at this

/-- C7 (amended): `startScheduler` is not idempotent; every call
unconditionally registers one more `cron.schedule` timer loop, so two calls
leave two competing loops, each of which triggers scan cycles. -/
theorem startScheduler_adds_one_timer_loop (s : CronState) :
    (startScheduler s).jobs = s.jobs ++ ["*/20 * * * *"] ∧
    (startScheduler (startScheduler s)).jobs.length = s.jobs.length + 2 := by
  exact ⟨rfl, by simp [startScheduler]⟩

/-- C8: for every task whose scan completes successfully, `lastScannedAt`
advances to the `updateLastScanned` timestamp, which is at or after the time
the scan began; and since every freshly drawn random interval is at least
the configured minimum (for a nonnegative `Math.random()` draw and
`min ≤ max`), the task is not due again before `minIntervalMinutes` have
elapsed since that update. -/
theorem successful_scan_advances_and_blocks_due (cfg : SchedulerConfig)
    (hcfg : cfg.minIntervalMinutes ≤ cfg.maxIntervalMinutes)
    (tasks : List SearchQuery) (q : SearchQuery) (env : ScanEnv)
    (ls : List VintedListing) (hscrape : env.scrape = .ok ls)
    (hpipe : env.pipelineError = none)
    (scanStart : ℚ) (hclock : scanStart ≤ env.updateTime) :
    scanSearchQuery tasks q env =
      .ok (env.newFindings, updateLastScanned tasks q.id env.updateTime) ∧
    (∀ q2 ∈ updateLastScanned tasks q.id env.updateTime, q2.id = q.id →
      q2.lastScannedAt = some env.updateTime ∧ scanStart ≤ env.updateTime) ∧
    (∀ rand : ℚ, 0 ≤ rand →
      cfg.minIntervalMinutes ≤ getRandomInterval cfg rand) ∧
    (∀ now rand : ℚ, 0 ≤ rand →
      (now - env.updateTime) / (1000 * 60) < (cfg.minIntervalMinutes : ℚ) →
      isDue cfg (some env.updateTime) now rand = false) := by
  have hmin : ∀ rand : ℚ, 0 ≤ rand →
      cfg.minIntervalMinutes ≤ getRandomInterval cfg rand := by
    intro rand hrand
    have hprod : (0 : ℚ) ≤
        rand * ((cfg.maxIntervalMinutes : ℚ) - (cfg.minIntervalMinutes : ℚ)) :=
      mul_nonneg hrand (sub_nonneg.mpr (by exact_mod_cast hcfg))
    have hfloor : (0 : ℤ) ≤
        ⌊rand * ((cfg.maxIntervalMinutes : ℚ) - (cfg.minIntervalMinutes : ℚ))⌋ :=
      Int.floor_nonneg.mpr hprod
    unfold getRandomInterval
    omega
  refine ⟨by simp [scanSearchQuery, hscrape, hpipe], ?_, hmin, ?_⟩
  · intro q2 hmem hid
    simp only [updateLastScanned, List.mem_map] at hmem
    obtain ⟨q0, _, hq0⟩ := hmem
    by_cases hidq : q0.id = q.id
    · rw [if_pos hidq] at hq0
      rw [← hq0]
      exact ⟨rfl, hclock⟩
    · rw [if_neg hidq] at hq0
      exact absurd (hq0 ▸ hid) hidq
  · intro now rand hrand hlt
    have hcast : ((cfg.minIntervalMinutes : ℚ)) ≤
        ((getRandomInterval cfg rand : ℤ) : ℚ) := by
      exact_mod_cast hmin rand hrand
    simp only [isDue, minutesSinceLastScan, Option.map_some',
      decide_eq_false_iff_not]
    exact not_le.mpr (lt_of_lt_of_le hlt hcast)

/-- A concrete scan effect record whose scrape succeeded, for the C8
witness: the scan began at time 5 (milliseconds) and the update ran at
time 7. -/
def succeedingScanEnv : ScanEnv :=
  { scrape := .ok [], pipelineError := none, newFindings := 0, updateTime := 7 }

/-- A concrete never-scanned active task. -/
def sampleTask : SearchQuery :=
  { id := 1, vintedUrl := "https://www.vinted.com/catalog",
    isActive := true, lastScannedAt := none }

/-- Witness for C8 at the default 70-150 minute configuration. -/
theorem successful_scan_advances_and_blocks_due_witness :
    scanSearchQuery [sampleTask] sampleTask succeedingScanEnv =
      .ok (succeedingScanEnv.newFindings,
        updateLastScanned [sampleTask] sampleTask.id succeedingScanEnv.updateTime) ∧
    (∀ q2 ∈ updateLastScanned [sampleTask] sampleTask.id
        succeedingScanEnv.updateTime, q2.id = sampleTask.id →
      q2.lastScannedAt = some succeedingScanEnv.updateTime ∧
      (5 : ℚ) ≤ succeedingScanEnv.updateTime) ∧
    (∀ rand : ℚ, 0 ≤ rand →
      defaultSchedulerConfig.minIntervalMinutes ≤
        getRandomInterval defaultSchedulerConfig rand) ∧
    (∀ now rand : ℚ, 0 ≤ rand →
      (now - succeedingScanEnv.updateTime) / (1000 * 60) <
        (defaultSchedulerConfig.minIntervalMinutes : ℚ) →
      isDue defaultSchedulerConfig (some succeedingScanEnv.updateTime)
        now rand = false) :=
  successful_scan_advances_and_blocks_due defaultSchedulerConfig (by decide)
    [sampleTask] sampleTask succeedingScanEnv [] rfl rfl 5
    (by norm_num [succeedingScanEnv])

/-- C9: `getFindings` returns exactly the findings with `expiresAt` strictly
earlier than the query time — only already-expired findings, the same set of
rows that `deleteExpiredFindings` deletes; a finding that has not yet expired
is never returned (it is exactly what `deleteExpiredFindings` keeps). -/
theorem getFindings_returns_exactly_expired (table : List Finding) (now : ℚ) :
    (∀ f, f ∈ getFindings table now ↔ f ∈ table ∧ f.expiresAt < now) ∧
    (∀ f, f ∈ getFindings table now ↔
      f ∈ deleteExpiredFindingsRemoves table now) ∧
    (∀ f, f ∈ deleteExpiredFindings table now ↔
      f ∈ table ∧ ¬ f.expiresAt < now) := by
  refine ⟨fun f => ?_, fun f => ?_, fun f => ?_⟩ <;>
    simp [getFindings, deleteExpiredFindings, deleteExpiredFindingsRemoves,
      List.mem_filter]

/-- C10: a `sendTelegramAlert` call with `confidenceScore < 75` or
`isValuableLikely = false` returns `false` without sending any message and
without touching the rate limiter's state — the sink's own threshold gate
runs before the rate-limit check. -/
theorem sendTelegramAlert_threshold_gate (env : TelegramEnv)
    (st : RateLimiterState) (listingTitle listingUrl price : String)
    (confidenceScore : ℚ) (mainMaterialGuess : String)
    (reasons : List String) (isValuableLikely : Bool)
    (h : confidenceScore < 75 ∨ isValuableLikely = false) :
    sendTelegramAlert env st listingTitle listingUrl price confidenceScore
      mainMaterialGuess reasons isValuableLikely = (false, st, []) := by
  unfold sendTelegramAlert
  rcases h with h | h
  · simp [h]
  · simp [h]

/-- A fully configured Telegram environment for the C10 witness. -/
def configuredTelegramEnv : TelegramEnv :=
  { botConfigured := true, chatConfigured := true, sendError := none, now := 0 }

/-- A limiter state holding one prior alert, for the C10 witness. -/
def oneAlertLimiter : RateLimiterState :=
  { alerts := [{ timestamp := 0, listingUrl := "https://www.vinted.com/items/9" }] }

/-- Witness for C10: a 50-percent-confidence listing is gated out with the
limiter state (one prior alert) left intact. -/
theorem sendTelegramAlert_threshold_gate_witness :
    sendTelegramAlert configuredTelegramEnv oneAlertLimiter
      "Old jewelry box" "https://www.vinted.com/items/1" "10 EUR" 50 "mixed"
      ["costume jewelry"] true = (false, oneAlertLimiter, []) :=
  sendTelegramAlert_threshold_gate _ _ _ _ _ _ _ _ _ (Or.inl (by norm_num))
